import Mathlib

/-!
Verification of the batch-tracked inventory and expiry-risk core of the
A7 Smart POS repository.

The definitions below are a shallow embedding of the TypeScript source:
  * `src/store.ts`                — product store (`removeBatchStock`,
    `incrementStock` defaults) and scanner store (`confirmAndSync`);
  * `src/backend/src/routes/api/batches.ts` — the create-or-increment
    batch route and its `createBatchSchema` validation;
  * `src/pages/Expiry.tsx`        — `useExpiryStats` classifier and the
    return-to-vendor handlers;
  * `src/pages/StockEntry.tsx`    — `handleScan` grid coalescing and the
    `handleSaveAll` commit loop.

Calendar dates are modelled as day numbers (`Int`) where only day
differences matter, and as explicit civil dates where the JavaScript
`setFullYear` arithmetic is at issue.  Monetary amounts and quantities
are JavaScript numbers used only at integer values; they are modelled
as `Int`.
-/

namespace A7

/-- One dated stock lot of a product (`Batch` in `src/types.ts` /
the prisma schema).  `expiryDate` is modelled as a calendar day number. -/
structure Batch where
  batchNumber : String
  expiryDate : Int
  quantity : Int
  costPrice : Int
deriving Repr, DecidableEq

/-- A catalog product (`Product` in `src/types.ts`), restricted to the
fields the inventory core reads. -/
structure Product where
  id : String
  gtin : String
  sku : String
  nameEn : String
  category : String
  unit : String
  price : Int
  location : String
  stockLevel : Int
  batches : List Batch
deriving Repr, DecidableEq

/-- Sum of the batch quantities of a product, the right-hand side of the
conservation invariant `stockLevel == Σ(batch.quantity)`. -/
def sumQty (p : Product) : Int :=
  (p.batches.map (·.quantity)).sum

/-- Update the first element satisfying `q` by `f`, leaving the rest of
the list unchanged.  This models the JavaScript pattern
`findIndex` followed by an in-place update of that element, used by both
`removeBatchStock` (`src/store.ts:463`) and the scan grid
(`src/pages/StockEntry.tsx:133`). -/
def updateFirst (q : α → Bool) (f : α → α) : List α → List α
  | [] => []
  | x :: xs => if q x then f x :: xs else x :: updateFirst q f xs

/-- `removeBatchStock` (`src/store.ts:457-491`), restricted to the one
product whose `id` matches (the surrounding `map` leaves every other
product untouched).  If a batch with the given `batchNumber` exists, its
quantity becomes `max 0 (quantity - q)` — the batch is kept in the list
even at zero — and `stockLevel` becomes `max 0 (stockLevel - q)`;
otherwise the product is returned unchanged. -/
def removeBatchStock (batchNumber : String) (q : Int) (p : Product) : Product :=
  if p.batches.any (·.batchNumber == batchNumber) then
    { p with
      batches := updateFirst (·.batchNumber == batchNumber)
        (fun b => { b with quantity := max 0 (b.quantity - q) }) p.batches,
      stockLevel := max 0 (p.stockLevel - q) }
  else
    p

/-- Request body of `POST /api/v1/products/:productId/batches`
(`src/backend/src/routes/api/batches.ts:12-17`). -/
structure BatchData where
  batchNumber : String
  expiryDate : Int
  quantity : Int
  costPrice : Int
deriving Repr, DecidableEq

/-- `createBatchSchema` (`src/backend/src/routes/api/batches.ts:12-17`):
`batchNumber: z.string().min(1)`, `quantity: z.coerce.number().int().min(0)`,
`costPrice: z.coerce.number().positive()`.  Integrality is implicit in the
`Int` model. -/
def createBatchSchemaValid (d : BatchData) : Bool :=
  d.batchNumber.length ≥ 1 && d.quantity ≥ 0 && d.costPrice > 0

/-- Core of the `POST /api/v1/products/:productId/batches` handler
(`src/backend/src/routes/api/batches.ts:139-184`), after the product has
been found and the body validated: if a batch with the same
`batchNumber` exists, add `quantity` to it and overwrite its
`costPrice`; otherwise create a new batch; in both cases add `quantity`
to the product's `stockLevel`. -/
def createOrIncrementBatch (d : BatchData) (p : Product) : Product :=
  if p.batches.any (·.batchNumber == d.batchNumber) then
    { p with
      batches := updateFirst (·.batchNumber == d.batchNumber)
        (fun b => { b with quantity := b.quantity + d.quantity, costPrice := d.costPrice }) p.batches,
      stockLevel := p.stockLevel + d.quantity }
  else
    { p with
      batches := p.batches ++
        [{ batchNumber := d.batchNumber, expiryDate := d.expiryDate,
           quantity := d.quantity, costPrice := d.costPrice }],
      stockLevel := p.stockLevel + d.quantity }

/-- Risk tier of an expiry item (`ExpiryItem.status` in
`src/pages/Expiry.tsx:23`). -/
inductive ExpStatus where
  | CRITICAL
  | WARNING
  | WATCH
  | GOOD
deriving Repr, DecidableEq

/-- Tier assignment of `useExpiryStats` (`src/pages/Expiry.tsx:57-60`):
`GOOD` by default, then the chained
`if (daysRemaining <= 30) ... else if (<= 60) ... else if (<= 90) ...`. -/
def classifyDays (daysRemaining : Int) : ExpStatus :=
  if daysRemaining ≤ 30 then .CRITICAL
  else if daysRemaining ≤ 60 then .WARNING
  else if daysRemaining ≤ 90 then .WATCH
  else .GOOD

/-- One derived expiry record (`ExpiryItem` in `src/pages/Expiry.tsx:18-25`).
The source stores the whole product and batch; here the product
contributes only its `id`. -/
structure ExpiryItem where
  productId : String
  batch : Batch
  daysRemaining : Int
  status : ExpStatus
  valueAtRisk : Int
deriving Repr, DecidableEq

/-- Per-tier aggregate `{count, value}` (`src/pages/Expiry.tsx:27-32`). -/
structure TierAgg where
  count : Nat
  value : Int
deriving Repr, DecidableEq

/-- `ExpiryStats` (`src/pages/Expiry.tsx:27-32`): the three named tiers
plus `ALL`; `GOOD` has no bucket of its own. -/
structure ExpiryStats where
  CRITICAL : TierAgg
  WARNING : TierAgg
  WATCH : TierAgg
  ALL : TierAgg
deriving Repr, DecidableEq

/-- Builds the `ExpiryItem` for one positive-quantity batch
(`src/pages/Expiry.tsx:53-78`): `daysRemaining` is the whole-day
difference from today-at-midnight to the expiry date (both are day
numbers here), `valueAtRisk = quantity * costPrice`. -/
def mkExpiryItem (today : Int) (p : Product) (b : Batch) : ExpiryItem :=
  { productId := p.id
    batch := b
    daysRemaining := b.expiryDate - today
    status := classifyDays (b.expiryDate - today)
    valueAtRisk := b.quantity * b.costPrice }

/-- The items pushed by the double `forEach` of `useExpiryStats`
(`src/pages/Expiry.tsx:49-80`), in traversal order; batches with
`quantity <= 0` are skipped by the early `return`. -/
def expiryItemsRaw (today : Int) (products : List Product) : List ExpiryItem :=
  products.flatMap fun p =>
    p.batches.filterMap fun b =>
      if b.quantity ≤ 0 then none else some (mkExpiryItem today p b)

/-- One step of the stats accumulation (`src/pages/Expiry.tsx:62-69`):
`ALL` is bumped for every item, the named tier only when the status is
not `GOOD`. -/
def addItemStats (s : ExpiryStats) (it : ExpiryItem) : ExpiryStats :=
  let s := { s with ALL := ⟨s.ALL.count + 1, s.ALL.value + it.valueAtRisk⟩ }
  match it.status with
  | .CRITICAL => { s with CRITICAL := ⟨s.CRITICAL.count + 1, s.CRITICAL.value + it.valueAtRisk⟩ }
  | .WARNING => { s with WARNING := ⟨s.WARNING.count + 1, s.WARNING.value + it.valueAtRisk⟩ }
  | .WATCH => { s with WATCH := ⟨s.WATCH.count + 1, s.WATCH.value + it.valueAtRisk⟩ }
  | .GOOD => s

/-- The all-zero initial stats object (`src/pages/Expiry.tsx:40-45`). -/
def initStats : ExpiryStats :=
  ⟨⟨0, 0⟩, ⟨0, 0⟩, ⟨0, 0⟩, ⟨0, 0⟩⟩

/-- Comparator of the final `items.sort((a, b) => a.daysRemaining -
b.daysRemaining)` (`src/pages/Expiry.tsx:83`). -/
def daysLE (a b : ExpiryItem) : Prop :=
  a.daysRemaining ≤ b.daysRemaining

instance : DecidableRel daysLE := fun _ _ => Int.decLe _ _

instance : IsTotal ExpiryItem daysLE := ⟨fun _ _ => Int.le_total _ _⟩

instance : IsTrans ExpiryItem daysLE := ⟨fun _ _ _ => Int.le_trans⟩

/-- `useExpiryStats` (`src/pages/Expiry.tsx:35-87`): accumulate stats
over the emitted items and return the item list sorted ascending by
`daysRemaining`. -/
def useExpiryStats (products : List Product) (today : Int) :
    ExpiryStats × List ExpiryItem :=
  let raw := expiryItemsRaw today products
  (raw.foldl addItemStats initStats, raw.insertionSort daysLE)

/-- One pending grid line of the stock-entry screen (`GridRow` in
`src/pages/StockEntry.tsx:16-31`). -/
structure GridRow where
  id : String
  gtin : String
  productName : String
  category : String
  batchNumber : String
  expiryDate : String
  quantity : Int
  unit : String
  costPrice : Int
  sellingPrice : Int
  location : String
  supplierId : String
  isNew : Bool
  isHighlighted : Bool
deriving Repr, DecidableEq

/-- `createEmptyRow` (`src/pages/StockEntry.tsx:94-108`).  The generated
row id is passed in instead of being derived from the clock. -/
def createEmptyRow (rid barcode : String) : GridRow :=
  { id := rid
    gtin := barcode
    productName := ""
    category := ""
    batchNumber := ""
    expiryDate := ""
    quantity := 1
    unit := "PCS"
    costPrice := 0
    sellingPrice := 0
    location := ""
    supplierId := ""
    isNew := true
    isHighlighted := false }

/-- Structured record returned by the barcode parser collaborator
(`GS1ParsedData` from `src/utils/gs1Parser.ts`, as consumed by
`handleScan`).  Empty-string fields are modelled as `none`, matching the
JavaScript truthiness tests. -/
structure ScanRecord where
  gtin : Option String
  batchNumber : Option String
  expiryDate : Option String
  rawData : String
deriving Repr, DecidableEq

/-- `const scannedCode = result.gtin || result.rawData || code`
(`src/pages/StockEntry.tsx:126`); the parser always sets `rawData`, so
the final `|| code` fallback never fires. -/
def scanCode (r : ScanRecord) : String :=
  r.gtin.getD r.rawData

/-- Catalog lookup of `handleScan` (`src/pages/StockEntry.tsx:129`):
`allProducts.find(p => p.gtin === code || p.id === code || p.sku === code)`. -/
def lookupProduct (code : String) (catalog : List Product) : Option Product :=
  catalog.find? fun p => p.gtin == code || p.id == code || p.sku == code

/-- The new row built by `handleScan` for a code not yet in the grid
(`src/pages/StockEntry.tsx:156-170`): pre-filled from the catalog
product when one matches, preferring batch/expiry metadata parsed from
the scan payload. -/
def prefillRow (rid : String) (rec : ScanRecord) (catalog : List Product) : GridRow :=
  let base := createEmptyRow rid (scanCode rec)
  match lookupProduct (scanCode rec) catalog with
  | some product =>
    { base with
      productName := product.nameEn
      category := product.category
      unit := product.unit
      costPrice := ((product.batches.head?).map (·.costPrice)).getD 0
      sellingPrice := product.price
      location := product.location
      batchNumber := rec.batchNumber.getD base.batchNumber
      expiryDate := rec.expiryDate.getD base.expiryDate }
  | none => base

/-- `handleScan` (`src/pages/StockEntry.tsx:121-189`), as a pure grid
transformation: if a row with the scanned identity already exists, its
quantity is incremented by 1 and it is flagged for highlight, at its
existing position; otherwise a new (possibly pre-filled) row with
quantity 1 is placed at the front of the grid.  The transient status
badge and focus moves are UI-only and not modelled. -/
def handleScan (rid : String) (rec : ScanRecord) (catalog : List Product)
    (grid : List GridRow) : List GridRow :=
  let code := scanCode rec
  if grid.any (·.gtin == code) then
    updateFirst (·.gtin == code)
      (fun r => { r with quantity := r.quantity + 1, isHighlighted := true }) grid
  else
    prefillRow rid rec catalog :: grid

/-- A sequence of scans applied in order, each carrying the row id used
if it inserts a new row. -/
def scanFold (catalog : List Product) (grid : List GridRow) :
    List (String × ScanRecord) → List GridRow
  | [] => grid
  | (rid, rec) :: rest => scanFold catalog (handleScan rid rec catalog grid) rest

/-- Outcome of the `handleSaveAll` commit loop
(`src/pages/StockEntry.tsx:245-323`): the rows whose mutation call was
issued and succeeded, and the grid contents after the commit attempt. -/
structure SaveResult where
  applied : List GridRow
  grid : List GridRow
deriving Repr, DecidableEq

/-- The `for (const entry of gridData)` loop body of `handleSaveAll`
(`src/pages/StockEntry.tsx:253-309`): rows without a product name are
skipped; `fails row = true` models the row's underlying mutation call
(`incrementStock` / `addProduct`) throwing, which aborts the loop.
Returns the successfully applied rows and whether the loop finished. -/
def runSaveLoop (fails : GridRow → Bool) : List GridRow → List GridRow × Bool
  | [] => ([], true)
  | r :: rest =>
    if r.productName = "" then runSaveLoop fails rest
    else if fails r then ([], false)
    else
      let (a, ok) := runSaveLoop fails rest
      (r :: a, ok)

/-- `handleSaveAll` (`src/pages/StockEntry.tsx:245-323`): on full
success `setGridData([])` clears the grid; on failure the `catch` block
only raises an alert and leaves `gridData` untouched. -/
def handleSaveAll (fails : GridRow → Bool) (grid : List GridRow) : SaveResult :=
  let (applied, ok) := runSaveLoop fails grid
  { applied := applied, grid := if ok then [] else grid }

/-- Sync status of a scanned item (`SyncStatus` in `src/types.ts`). -/
inductive SyncStatus where
  | PENDING
  | SYNCED
  | ERROR
deriving Repr, DecidableEq

/-- A verified scan record held by the scanner store (`ScannedItem` in
`src/types.ts`), restricted to the fields `confirmAndSync` reads. -/
structure ScannedItem where
  id : String
  gtin : Option String
  productName : String
  rawData : String
  quantity : Int
  syncStatus : SyncStatus
  syncMessage : String
deriving Repr, DecidableEq

/-- One sync-log entry (`SyncLog` in `src/types.ts`), restricted to the
fields `confirmAndSync` writes. -/
structure SyncLog where
  id : String
  scanId : String
  productName : String
  oldQuantity : Int
  newQuantity : Int
deriving Repr, DecidableEq

/-- The persisted lists of the scanner store (`src/store.ts:496-511`). -/
structure ScannerState where
  scannedItems : List ScannedItem
  syncLogs : List SyncLog
deriving Repr, DecidableEq

/-- Product identification of `confirmAndSync` (`src/store.ts:558-564`):
match by `gtin`; the SKU/id fallback against `rawData` runs only when
the item carries no gtin. -/
def identifyProduct (item : ScannedItem) (catalog : List Product) : Option Product :=
  match item.gtin with
  | some g => catalog.find? (·.gtin == g)
  | none => catalog.find? fun p => p.sku == item.rawData || p.id == item.rawData

/-- `confirmAndSync` (`src/store.ts:554-616`) as a transition on the
scanner store state.  On a product match the verified item is marked
`SYNCED`, prepended to `scannedItems` (capped via `.slice(0, 500)`), and
a success log is prepended to `syncLogs` (capped via `.slice(0, 200)`);
otherwise an `ERROR` item is prepended to `scannedItems` alone.  The
`logId` stands for the clock-derived `log-${Date.now()}`; the
inventory side effect (`incrementStock`) is covered separately. -/
def confirmAndSync (catalog : List Product) (logId : String)
    (item : ScannedItem) (s : ScannerState) : ScannerState :=
  match identifyProduct item catalog with
  | some product =>
    let finalItem : ScannedItem :=
      { item with productName := product.nameEn, syncStatus := .SYNCED,
                  syncMessage := "Verified & Added" }
    { scannedItems := (finalItem :: s.scannedItems).take 500
      syncLogs :=
        ({ id := logId, scanId := item.id, productName := product.nameEn,
           oldQuantity := product.stockLevel,
           newQuantity := product.stockLevel + item.quantity } :: s.syncLogs).take 200 }
  | none =>
    let errorItem : ScannedItem :=
      { item with syncStatus := .ERROR,
                  syncMessage := "Product not found. Please add to master list first." }
    { scannedItems := (errorItem :: s.scannedItems).take 500
      syncLogs := s.syncLogs }

/-- Gregorian leap-year test, as implemented by the JavaScript `Date`
calendar. -/
def isLeap (y : Nat) : Bool :=
  y % 4 == 0 && (y % 100 != 0 || y % 400 == 0)

/-- A civil calendar date (year ≥ 1, month 1-12, day 1-31). -/
structure CivilDate where
  year : Nat
  month : Nat
  day : Nat
deriving Repr, DecidableEq

/-- Length of a month in the Gregorian calendar. -/
def daysInMonth (y m : Nat) : Nat :=
  match m with
  | 1 => 31
  | 2 => if isLeap y then 29 else 28
  | 3 => 31
  | 4 => 30
  | 5 => 31
  | 6 => 30
  | 7 => 31
  | 8 => 31
  | 9 => 30
  | 10 => 31
  | 11 => 30
  | 12 => 31
  | _ => 0

/-- Days before month `m` in a non-leap year. -/
def monthOffset (m : Nat) : Nat :=
  match m with
  | 1 => 0
  | 2 => 31
  | 3 => 59
  | 4 => 90
  | 5 => 120
  | 6 => 151
  | 7 => 181
  | 8 => 212
  | 9 => 243
  | 10 => 273
  | 11 => 304
  | 12 => 334
  | _ => 0

/-- Days before month `m` of a year whose leap flag is `leap`. -/
def daysBeforeMonth (leap : Bool) (m : Nat) : Nat :=
  monthOffset m + (if leap && decide (3 ≤ m) then 1 else 0)

/-- Number of leap years in `[1, y]`. -/
def leapCount (y : Nat) : Nat :=
  y / 4 - y / 100 + y / 400

/-- Linear day number of a civil date (day numbers only ever appear in
differences, so the choice of epoch is irrelevant). -/
def dayNumber (d : CivilDate) : Nat :=
  365 * (d.year - 1) + leapCount (d.year - 1) +
    daysBeforeMonth (isLeap d.year) d.month + (d.day - 1)

/-- `defaultDate.setFullYear(defaultDate.getFullYear() + 1)`
(`src/store.ts:376-377`): JavaScript keeps month and day and bumps the
year; a Feb 29 start in a non-leap target year normalizes to Mar 1. -/
def jsAddYear (d : CivilDate) : CivilDate :=
  if d.day ≤ daysInMonth (d.year + 1) d.month then
    ⟨d.year + 1, d.month, d.day⟩
  else
    ⟨d.year + 1, d.month + 1, d.day - daysInMonth (d.year + 1) d.month⟩

/-- `batchNumber: batchNumber || 'DEFAULT'` (`src/store.ts:382`), where
the parameter is `string | null`; both `null` and the empty string are
falsy. -/
def defaultBatchNumber (bn : Option String) : String :=
  match bn with
  | some s => if s = "" then "DEFAULT" else s
  | none => "DEFAULT"

/-- The expiry-date defaulting of `incrementStock`
(`src/store.ts:371-379`): use the supplied date when present, otherwise
the call date advanced by one calendar year. -/
def defaultExpiryDate (callDate : CivilDate) (expiryDate : Option CivilDate) : CivilDate :=
  match expiryDate with
  | some e => e
  | none => jsAddYear callDate

/-- The `batchData` object sent to the batch API (`src/store.ts:381-386`). -/
structure ReceiveBatchData where
  batchNumber : String
  expiryDate : CivilDate
  quantity : Int
  costPrice : Int
deriving Repr, DecidableEq

/-- `incrementStock`'s request construction (`src/store.ts:367-388`);
`Math.floor(Number(quantity)) || 0` is the identity on the integer
quantities modelled here, and a missing `costPrice` defaults to 0. -/
def incrementStockBatchData (callDate : CivilDate) (batchNumber : Option String)
    (quantity : Int) (expiryDate : Option CivilDate) (costPrice : Option Int) :
    ReceiveBatchData :=
  { batchNumber := defaultBatchNumber batchNumber
    expiryDate := defaultExpiryDate callDate expiryDate
    quantity := quantity
    costPrice := costPrice.getD 0 }

/-- `onChange` of the return-quantity input (`src/pages/Expiry.tsx:510`):
`Math.min(parseInt(e.target.value) || 0, batch.quantity)` — the typed
value is clamped down to the batch's on-hand quantity. -/
def returnQtyOnChange (input onHand : Int) : Int :=
  min input onHand

/-- `confirmReturn` (`src/pages/Expiry.tsx:137-155`) as seen by the
ledger: the guard `if (!selectedReturnItem || returnQty <= 0) return`
skips the call entirely for non-positive quantities, otherwise
`removeBatchStock(product.id, batch.batchNumber, returnQty, 'RETURN')`
runs (the `reason` tag does not change ledger mechanics). -/
def confirmReturn (batchNumber : String) (returnQty : Int) (p : Product) : Product :=
  if returnQty ≤ 0 then p else removeBatchStock batchNumber returnQty p

/-- A stock mutation against one product: a receive through the
create-or-increment batch route, or a return/write-off through
`removeBatchStock`. -/
inductive Mutation where
  | receive (d : BatchData)
  | writeOff (batchNumber : String) (quantity : Int)
deriving Repr, DecidableEq

/-- Apply one mutation. -/
def applyMutation : Mutation → Product → Product
  | .receive d, p => createOrIncrementBatch d p
  | .writeOff bn q, p => removeBatchStock bn q p

/-- Apply a sequence of mutations in order. -/
def applyMutations (ms : List Mutation) (p : Product) : Product :=
  ms.foldl (fun p m => applyMutation m p) p

/-- The conservation invariant of the spec together with batch
non-negativity: `stockLevel == Σ(batch.quantity)` and every batch
quantity is ≥ 0. -/
def Inv (p : Product) : Prop :=
  p.stockLevel = sumQty p ∧ ∀ b ∈ p.batches, 0 ≤ b.quantity

/-- A mutation is in bounds for the current product state: a receive
must carry a non-negative quantity (as `createBatchSchema` enforces),
and a write-off a non-negative quantity not exceeding the on-hand
quantity of the batch it resolves to (when one exists). -/
def validStep (p : Product) : Mutation → Prop
  | .receive d => 0 ≤ d.quantity
  | .writeOff bn q =>
    0 ≤ q ∧ ∀ b, p.batches.find? (·.batchNumber == bn) = some b → q ≤ b.quantity

/-- Every mutation of the sequence is in bounds for the state it is
applied to. -/
def validSeq : Product → List Mutation → Prop
  | _, [] => True
  | p, m :: ms => validStep p m ∧ validSeq (applyMutation m p) ms

/-! ### Helper lemmas -/

theorem updateFirst_of_split (q : α → Bool) (f : α → α) (pre post : List α) (x : α)
    (hpre : ∀ y ∈ pre, q y = false) (hx : q x = true) :
    updateFirst q f (pre ++ x :: post) = pre ++ f x :: post := by
  induction pre with
  | nil => simp [updateFirst, hx]
  | cons y ys ih =>
    have hy : q y = false := hpre y (by simp)
    simp only [List.cons_append, updateFirst, hy, Bool.false_eq_true, if_false,
      List.cons.injEq, true_and]
    exact ih fun z hz => hpre z (by simp [hz])

theorem exists_split_of_any (q : α → Bool) (l : List α) (h : l.any q = true) :
    ∃ pre x post, l = pre ++ x :: post ∧ (∀ y ∈ pre, q y = false) ∧ q x = true ∧
      l.find? q = some x := by
  induction l with
  | nil => simp at h
  | cons y ys ih =>
    by_cases hy : q y = true
    · exact ⟨[], y, ys, by simp, by simp, hy, by simp [List.find?, hy]⟩
    · have hy' : q y = false := by simpa using hy
      have hys : ys.any q = true := by
        simpa [List.any_cons, hy'] using h
      obtain ⟨pre, x, post, hsplit, hpre, hx, hfind⟩ := ih hys
      refine ⟨y :: pre, x, post, by simp [hsplit], ?_, hx, ?_⟩
      · intro z hz
        rcases List.mem_cons.mp hz with rfl | hz
        · exact hy'
        · exact hpre z hz
      · simp [List.find?, hy', hfind]

theorem any_eq_false_of_forall (q : α → Bool) (l : List α)
    (h : ∀ y ∈ l, q y = false) : l.any q = false := by
  induction l with
  | nil => simp
  | cons y ys ih =>
    simp only [List.any_cons, Bool.or_eq_false_iff]
    exact ⟨h y (by simp), ih fun z hz => h z (by simp [hz])⟩

/-- Sample batch for concrete witnesses. -/
def sampleBatch (bn : String) (qty : Int) : Batch :=
  { batchNumber := bn, expiryDate := 0, quantity := qty, costPrice := 100 }

/-- Sample product for concrete witnesses. -/
def sampleProduct (stockLevel : Int) (batches : List Batch) : Product :=
  { id := "p1", gtin := "0001", sku := "SKU-1", nameEn := "Sample",
    category := "General", unit := "PCS", price := 250, location := "A-1",
    stockLevel := stockLevel, batches := batches }

/-! ### C2: `removeBatchStock` per-product behaviour -/

/-- C2: for `removeBatchStock` on a product, if a batch with the given
`batchNumber` exists (the first such batch, as resolved by `findIndex`),
its quantity becomes `max 0 (quantity - delta)` — floored at zero — and
the batch list keeps the same length (a depleted batch is retained
rather than removed); if no batch with that `batchNumber` exists the
operation is a no-op and the product is left completely unchanged. -/
theorem C2_removeBatchStock_spec (bn : String) (q : Int) (p : Product) :
    ((∀ b ∈ p.batches, b.batchNumber ≠ bn) → removeBatchStock bn q p = p) ∧
    (∀ pre b post, p.batches = pre ++ b :: post →
      (∀ x ∈ pre, x.batchNumber ≠ bn) → b.batchNumber = bn →
      (removeBatchStock bn q p).batches
          = pre ++ { b with quantity := max 0 (b.quantity - q) } :: post ∧
      (removeBatchStock bn q p).batches.length = p.batches.length ∧
      (removeBatchStock bn q p).stockLevel = max 0 (p.stockLevel - q)) := by
  constructor
  · intro h
    have hany : p.batches.any (·.batchNumber == bn) = false :=
      any_eq_false_of_forall _ _ fun y hy => by
        simpa using h y hy
    simp [removeBatchStock, hany]
  · intro pre b post hsplit hpre hb
    have hany : p.batches.any (·.batchNumber == bn) = true := by
      rw [hsplit]
      refine List.any_eq_true.mpr ⟨b, by simp, by simpa using hb⟩
    have hupd : updateFirst (·.batchNumber == bn)
        (fun x => { x with quantity := max 0 (x.quantity - q) }) p.batches
          = pre ++ { b with quantity := max 0 (b.quantity - q) } :: post := by
      rw [hsplit]
      exact updateFirst_of_split _ _ pre post b
        (fun y hy => by simpa using hpre y hy) (by simpa using hb)
    have hres : removeBatchStock bn q p =
        { p with
          batches := pre ++ { b with quantity := max 0 (b.quantity - q) } :: post,
          stockLevel := max 0 (p.stockLevel - q) } := by
      simp [removeBatchStock, hany, hupd]
    refine ⟨by simp [hres], ?_, by simp [hres]⟩
    rw [hres, hsplit]
    simp

/-- Witness for C2 at concrete inputs: removing against an absent batch
number is a no-op, and removing 10 from a 7-unit batch floors it at 0
while keeping it in the list. -/
theorem C2_removeBatchStock_spec_witness :
    removeBatchStock "LOT-9" 3
        (sampleProduct 12 [sampleBatch "LOT-1" 5, sampleBatch "LOT-2" 7])
      = sampleProduct 12 [sampleBatch "LOT-1" 5, sampleBatch "LOT-2" 7] ∧
    (removeBatchStock "LOT-2" 10
        (sampleProduct 12 [sampleBatch "LOT-1" 5, sampleBatch "LOT-2" 7])).batches
      = [sampleBatch "LOT-1" 5, sampleBatch "LOT-2" 0] ∧
    (removeBatchStock "LOT-2" 10
        (sampleProduct 12 [sampleBatch "LOT-1" 5, sampleBatch "LOT-2" 7])).stockLevel = 2 := by
  refine ⟨?_, ?_, ?_⟩
  · exact (C2_removeBatchStock_spec "LOT-9" 3
      (sampleProduct 12 [sampleBatch "LOT-1" 5, sampleBatch "LOT-2" 7])).1
      (by decide)
  · have h := ((C2_removeBatchStock_spec "LOT-2" 10
      (sampleProduct 12 [sampleBatch "LOT-1" 5, sampleBatch "LOT-2" 7])).2
      [sampleBatch "LOT-1" 5] (sampleBatch "LOT-2" 7) [] (by decide)
      (by decide) (by decide)).1
    rw [h]; decide
  · have h := ((C2_removeBatchStock_spec "LOT-2" 10
      (sampleProduct 12 [sampleBatch "LOT-1" 5, sampleBatch "LOT-2" 7])).2
      [sampleBatch "LOT-1" 5] (sampleBatch "LOT-2" 7) [] (by decide)
      (by decide) (by decide)).2.2
    rw [h]; decide

/-! ### C1: conservation of `stockLevel == Σ(batch.quantity)` -/

theorem createOrIncrementBatch_inv (d : BatchData) (p : Product)
    (hInv : Inv p) (hq : 0 ≤ d.quantity) : Inv (createOrIncrementBatch d p) := by
  obtain ⟨hsum, hnn⟩ := hInv
  by_cases hany : p.batches.any (·.batchNumber == d.batchNumber) = true
  · obtain ⟨pre, b, post, hsplit, hpre, hb, hfind⟩ :=
      exists_split_of_any (·.batchNumber == d.batchNumber) p.batches hany
    have hupd : updateFirst (·.batchNumber == d.batchNumber)
        (fun x => { x with quantity := x.quantity + d.quantity, costPrice := d.costPrice })
        p.batches
          = pre ++ { b with quantity := b.quantity + d.quantity, costPrice := d.costPrice }
              :: post := by
      rw [hsplit]
      exact updateFirst_of_split _ _ pre post b hpre hb
    constructor
    · simp only [createOrIncrementBatch, hany, if_true, sumQty, hupd]
      rw [hsum, sumQty, hsplit]
      simp
      ring
    · intro x hx
      simp only [createOrIncrementBatch, hany, if_true, hupd] at hx
      rcases List.mem_append.mp hx with hx | hx
      · exact hnn x (by rw [hsplit]; exact List.mem_append.mpr (Or.inl hx))
      · rcases List.mem_cons.mp hx with rfl | hx
        · have hbq : 0 ≤ b.quantity :=
            hnn b (by rw [hsplit]; simp)
          simpa using add_nonneg hbq hq
        · exact hnn x (by rw [hsplit]; simp [hx])
  · have hany' : p.batches.any (·.batchNumber == d.batchNumber) = false := by
      simpa using hany
    constructor
    · simp only [createOrIncrementBatch, hany', Bool.false_eq_true, if_false, sumQty]
      rw [hsum, sumQty]
      simp
    · intro x hx
      simp only [createOrIncrementBatch, hany', Bool.false_eq_true, if_false] at hx
      rcases List.mem_append.mp hx with hx | hx
      · exact hnn x hx
      · rcases List.mem_cons.mp hx with rfl | hx
        · simpa using hq
        · simp at hx

theorem removeBatchStock_inv (bn : String) (q : Int) (p : Product)
    (hInv : Inv p) (_hq : 0 ≤ q)
    (hbd : ∀ b, p.batches.find? (·.batchNumber == bn) = some b → q ≤ b.quantity) :
    Inv (removeBatchStock bn q p) := by
  obtain ⟨hsum, hnn⟩ := hInv
  by_cases hany : p.batches.any (·.batchNumber == bn) = true
  · obtain ⟨pre, b, post, hsplit, hpre, hb, hfind⟩ :=
      exists_split_of_any (·.batchNumber == bn) p.batches hany
    have hqb : q ≤ b.quantity := hbd b hfind
    have hupd : updateFirst (·.batchNumber == bn)
        (fun x => { x with quantity := max 0 (x.quantity - q) }) p.batches
          = pre ++ { b with quantity := max 0 (b.quantity - q) } :: post := by
      rw [hsplit]
      exact updateFirst_of_split _ _ pre post b hpre hb
    have hmax : max 0 (b.quantity - q) = b.quantity - q :=
      max_eq_right (by omega)
    have hble : b.quantity ≤ sumQty p := by
      have h0 : ∀ x ∈ p.batches.map (·.quantity), (0 : Int) ≤ x := by
        intro x hx
        obtain ⟨c, hc, rfl⟩ := List.mem_map.mp hx
        exact hnn c hc
      exact List.single_le_sum h0 _
        (List.mem_map.mpr ⟨b, by rw [hsplit]; simp, rfl⟩)
    have hsl : max 0 (p.stockLevel - q) = p.stockLevel - q :=
      max_eq_right (by omega)
    constructor
    · simp only [removeBatchStock, hany, if_true, sumQty, hupd, hsl]
      rw [hsum, sumQty, hsplit]
      simp [hmax]
      ring
    · intro x hx
      simp only [removeBatchStock, hany, if_true, hupd] at hx
      rcases List.mem_append.mp hx with hx | hx
      · exact hnn x (by rw [hsplit]; exact List.mem_append.mpr (Or.inl hx))
      · rcases List.mem_cons.mp hx with rfl | hx
        · simp
        · exact hnn x (by rw [hsplit]; simp [hx])
  · have hany' : p.batches.any (·.batchNumber == bn) = false := by
      simpa using hany
    simpa [removeBatchStock, hany'] using And.intro hsum hnn

theorem applyMutation_inv (m : Mutation) (p : Product)
    (hInv : Inv p) (hv : validStep p m) : Inv (applyMutation m p) := by
  cases m with
  | receive d => exact createOrIncrementBatch_inv d p hInv hv
  | writeOff bn q => exact removeBatchStock_inv bn q p hInv hv.1 hv.2

/-- C1 (amended): for every product satisfying the conservation
invariant and every sequence of in-bounds mutations — receives with
non-negative quantity, write-offs not exceeding the on-hand quantity of
the batch they resolve to — the invariant
`stockLevel == Σ(batch.quantity)` (together with batch non-negativity)
holds after every prefix of the sequence.  The original claim's
over-write-off case is false: see the counterexample. -/
theorem C1_conservation (p : Product) (ms : List Mutation)
    (hInv : Inv p) (hv : validSeq p ms) :
    ∀ n : Nat, Inv (applyMutations (ms.take n) p) := by
  induction ms generalizing p with
  | nil => intro n; simpa [applyMutations] using hInv
  | cons m rest ih =>
    intro n
    cases n with
    | zero => simpa [applyMutations] using hInv
    | succ k =>
      have hstep : Inv (applyMutation m p) := applyMutation_inv m p hInv hv.1
      have := ih (applyMutation m p) hstep hv.2 k
      simpa [applyMutations, List.foldl_cons] using this

/-- Witness for C1 at a concrete in-bounds sequence: receive 150 into a
fresh product, then write off 30 of it; the invariant holds after each
prefix. -/
theorem C1_conservation_witness :
    Inv (sampleProduct 0 []) ∧
    Inv (applyMutations ([Mutation.receive ⟨"LOT-202401", 20240601, 150, 600⟩,
      Mutation.writeOff "LOT-202401" 30].take 1) (sampleProduct 0 [])) ∧
    Inv (applyMutations ([Mutation.receive ⟨"LOT-202401", 20240601, 150, 600⟩,
      Mutation.writeOff "LOT-202401" 30].take 2) (sampleProduct 0 [])) := by
  have hInv : Inv (sampleProduct 0 []) := by
    constructor
    · decide
    · intro b hb; simp [sampleProduct] at hb
  have happ : applyMutation (Mutation.receive ⟨"LOT-202401", 20240601, 150, 600⟩)
      (sampleProduct 0 [])
      = { id := "p1", gtin := "0001", sku := "SKU-1", nameEn := "Sample",
          category := "General", unit := "PCS", price := 250, location := "A-1",
          stockLevel := 150,
          batches := [{ batchNumber := "LOT-202401", expiryDate := 20240601,
                        quantity := 150, costPrice := 600 }] } := by
    decide
  have hv : validSeq (sampleProduct 0 [])
      [Mutation.receive ⟨"LOT-202401", 20240601, 150, 600⟩,
       Mutation.writeOff "LOT-202401" 30] := by
    simp only [validSeq, validStep, happ]
    refine ⟨by decide, ⟨by decide, ?_⟩, trivial⟩
    intro b hb
    have hfind : List.find? (·.batchNumber == "LOT-202401")
        [({ batchNumber := "LOT-202401", expiryDate := 20240601, quantity := 150,
            costPrice := 600 } : Batch)]
        = some { batchNumber := "LOT-202401", expiryDate := 20240601, quantity := 150,
                 costPrice := 600 } := by decide
    rw [hfind] at hb
    rw [← Option.some.inj hb]
    decide
  exact ⟨hInv,
    C1_conservation (sampleProduct 0 []) _ hInv hv 1,
    C1_conservation (sampleProduct 0 []) _ hInv hv 2⟩

/-- Counterexample to C1 as stated: a product with batches of 5 and 10
units (invariant holds, `stockLevel = 15`) subjected to a write-off of
10 against the 5-unit batch.  The batch clamps to 0 (losing only 5)
while `stockLevel` drops by the full 10, leaving `stockLevel = 5` but
`Σ(batch.quantity) = 10`. -/
theorem C1_conservation_counterexample :
    Inv (sampleProduct 15 [sampleBatch "LOT-1" 5, sampleBatch "LOT-2" 10]) ∧
    ¬ ((applyMutations [Mutation.writeOff "LOT-1" 10]
        (sampleProduct 15 [sampleBatch "LOT-1" 5, sampleBatch "LOT-2" 10])).stockLevel
      = sumQty (applyMutations [Mutation.writeOff "LOT-1" 10]
        (sampleProduct 15 [sampleBatch "LOT-1" 5, sampleBatch "LOT-2" 10]))) := by
  constructor
  · constructor
    · decide
    · decide
  · decide

/-! ### C3, C4: the expiry risk classifier -/

theorem classifyDays_iffs (d : Int) :
    (classifyDays d = .CRITICAL ↔ d ≤ 30) ∧
    (classifyDays d = .WARNING ↔ 31 ≤ d ∧ d ≤ 60) ∧
    (classifyDays d = .WATCH ↔ 61 ≤ d ∧ d ≤ 90) ∧
    (classifyDays d = .GOOD ↔ 90 < d) := by
  unfold classifyDays
  split_ifs with h1 h2 h3 <;> simp_all <;> omega

theorem filterMap_expiry_length (today : Int) (p : Product) (l : List Batch) :
    (l.filterMap fun b =>
        if b.quantity ≤ 0 then none else some (mkExpiryItem today p b)).length
      = (l.filter fun b => decide (0 < b.quantity)).length := by
  induction l with
  | nil => rfl
  | cons b bs ih =>
    by_cases hb : b.quantity ≤ 0
    · have : ¬ (0 : Int) < b.quantity := by omega
      simp [List.filterMap_cons, List.filter_cons, hb, this, ih]
    · have : (0 : Int) < b.quantity := by omega
      simp [List.filterMap_cons, List.filter_cons, hb, this, ih]

theorem expiryItemsRaw_perm_sorted (products : List Product) (today : Int) :
    ((useExpiryStats products today).2).Perm (expiryItemsRaw today products) := by
  simpa [useExpiryStats] using
    List.perm_insertionSort daysLE (expiryItemsRaw today products)

/-- C3: the classifier emits exactly one `ExpiryItem` per batch with
`quantity > 0` (zero-quantity batches are excluded), with
`daysRemaining` the whole-day difference from today-at-midnight to the
batch's expiry date, `valueAtRisk = quantity * costPrice`, and status
`CRITICAL` iff `daysRemaining ≤ 30` (including every negative,
already-expired value), `WARNING` iff `31 ≤ daysRemaining ≤ 60`,
`WATCH` iff `61 ≤ daysRemaining ≤ 90`, and `GOOD` iff
`daysRemaining > 90`. -/
theorem C3_classifier_items (products : List Product) (today : Int) :
    ((useExpiryStats products today).2).length
        = (products.map fun p =>
            (p.batches.filter fun b => decide (0 < b.quantity)).length).sum ∧
    (∀ p ∈ products, ∀ b ∈ p.batches, 0 < b.quantity →
      mkExpiryItem today p b ∈ (useExpiryStats products today).2) ∧
    (∀ it ∈ (useExpiryStats products today).2,
      0 < it.batch.quantity ∧
      it.daysRemaining = it.batch.expiryDate - today ∧
      it.valueAtRisk = it.batch.quantity * it.batch.costPrice ∧
      (it.status = .CRITICAL ↔ it.daysRemaining ≤ 30) ∧
      (it.status = .WARNING ↔ 31 ≤ it.daysRemaining ∧ it.daysRemaining ≤ 60) ∧
      (it.status = .WATCH ↔ 61 ≤ it.daysRemaining ∧ it.daysRemaining ≤ 90) ∧
      (it.status = .GOOD ↔ 90 < it.daysRemaining)) := by
  have hperm := expiryItemsRaw_perm_sorted products today
  refine ⟨?_, ?_, ?_⟩
  · rw [hperm.length_eq]
    unfold expiryItemsRaw
    rw [List.length_flatMap]
    congr 1
    apply List.map_congr_left
    intro p _
    exact filterMap_expiry_length today p p.batches
  · intro p hp b hb hbq
    rw [hperm.mem_iff]
    unfold expiryItemsRaw
    refine List.mem_flatMap.mpr ⟨p, hp, List.mem_filterMap.mpr ⟨b, hb, ?_⟩⟩
    have : ¬ b.quantity ≤ 0 := by omega
    simp [this]
  · intro it hit
    rw [hperm.mem_iff] at hit
    unfold expiryItemsRaw at hit
    obtain ⟨p, _, hmem⟩ := List.mem_flatMap.mp hit
    obtain ⟨b, _, hb⟩ := List.mem_filterMap.mp hmem
    by_cases hq : b.quantity ≤ 0
    · simp [hq] at hb
    · simp only [hq, if_false] at hb
      obtain ⟨iff1, iff2, iff3, iff4⟩ := classifyDays_iffs (b.expiryDate - today)
      have hb' := Option.some.inj hb
      subst hb'
      exact ⟨by simpa using (by omega : 0 < b.quantity), rfl, rfl,
        by simpa [mkExpiryItem] using iff1,
        by simpa [mkExpiryItem] using iff2,
        by simpa [mkExpiryItem] using iff3,
        by simpa [mkExpiryItem] using iff4⟩

/-- Witness for C3 at the spec's concrete scenario: one product with a
single 10-unit batch at cost 100 expiring 19 days from today yields
exactly one item, present in the output, with `status = CRITICAL` and
`valueAtRisk = 1000`. -/
theorem C3_classifier_items_witness :
    ((useExpiryStats [sampleProduct 10 [⟨"LOT-1", 19, 10, 100⟩]] 0).2).length = 1 ∧
    mkExpiryItem 0 (sampleProduct 10 [⟨"LOT-1", 19, 10, 100⟩]) ⟨"LOT-1", 19, 10, 100⟩
      ∈ (useExpiryStats [sampleProduct 10 [⟨"LOT-1", 19, 10, 100⟩]] 0).2 ∧
    (mkExpiryItem 0 (sampleProduct 10 [⟨"LOT-1", 19, 10, 100⟩])
        ⟨"LOT-1", 19, 10, 100⟩).status = .CRITICAL ∧
    (mkExpiryItem 0 (sampleProduct 10 [⟨"LOT-1", 19, 10, 100⟩])
        ⟨"LOT-1", 19, 10, 100⟩).valueAtRisk = 1000 := by
  obtain ⟨hlen, hmem, _⟩ :=
    C3_classifier_items [sampleProduct 10 [⟨"LOT-1", 19, 10, 100⟩]] 0
  refine ⟨?_, ?_, by decide, by decide⟩
  · rw [hlen]; decide
  · exact hmem (sampleProduct 10 [⟨"LOT-1", 19, 10, 100⟩]) (by simp)
      ⟨"LOT-1", 19, 10, 100⟩ (by simp [sampleProduct]) (by decide)

theorem foldl_addItemStats (items : List ExpiryItem) (s : ExpiryStats) :
    (items.foldl addItemStats s).ALL.count = s.ALL.count + items.length ∧
    (items.foldl addItemStats s).ALL.value
        = s.ALL.value + (items.map (·.valueAtRisk)).sum ∧
    (items.foldl addItemStats s).CRITICAL.count
        = s.CRITICAL.count + (items.filter (·.status == .CRITICAL)).length ∧
    (items.foldl addItemStats s).CRITICAL.value
        = s.CRITICAL.value + ((items.filter (·.status == .CRITICAL)).map (·.valueAtRisk)).sum ∧
    (items.foldl addItemStats s).WARNING.count
        = s.WARNING.count + (items.filter (·.status == .WARNING)).length ∧
    (items.foldl addItemStats s).WARNING.value
        = s.WARNING.value + ((items.filter (·.status == .WARNING)).map (·.valueAtRisk)).sum ∧
    (items.foldl addItemStats s).WATCH.count
        = s.WATCH.count + (items.filter (·.status == .WATCH)).length ∧
    (items.foldl addItemStats s).WATCH.value
        = s.WATCH.value + ((items.filter (·.status == .WATCH)).map (·.valueAtRisk)).sum := by
  induction items generalizing s with
  | nil => simp
  | cons it rest ih =>
    rw [List.foldl_cons]
    obtain ⟨h1, h2, h3, h4, h5, h6, h7, h8⟩ := ih (addItemStats s it)
    cases hst : it.status with
    | CRITICAL =>
      have hadd : addItemStats s it =
          { CRITICAL := ⟨s.CRITICAL.count + 1, s.CRITICAL.value + it.valueAtRisk⟩,
            WARNING := s.WARNING, WATCH := s.WATCH,
            ALL := ⟨s.ALL.count + 1, s.ALL.value + it.valueAtRisk⟩ } := by
        simp [addItemStats, hst]
      rw [hadd] at h1 h2 h3 h4 h5 h6 h7 h8 ⊢
      refine ⟨?_, ?_, ?_, ?_, ?_, ?_, ?_, ?_⟩ <;>
        simp [h1, h2, h3, h4, h5, h6, h7, h8, List.filter_cons, hst] <;> omega
    | WARNING =>
      have hadd : addItemStats s it =
          { CRITICAL := s.CRITICAL,
            WARNING := ⟨s.WARNING.count + 1, s.WARNING.value + it.valueAtRisk⟩,
            WATCH := s.WATCH,
            ALL := ⟨s.ALL.count + 1, s.ALL.value + it.valueAtRisk⟩ } := by
        simp [addItemStats, hst]
      rw [hadd] at h1 h2 h3 h4 h5 h6 h7 h8 ⊢
      refine ⟨?_, ?_, ?_, ?_, ?_, ?_, ?_, ?_⟩ <;>
        simp [h1, h2, h3, h4, h5, h6, h7, h8, List.filter_cons, hst] <;> omega
    | WATCH =>
      have hadd : addItemStats s it =
          { CRITICAL := s.CRITICAL, WARNING := s.WARNING,
            WATCH := ⟨s.WATCH.count + 1, s.WATCH.value + it.valueAtRisk⟩,
            ALL := ⟨s.ALL.count + 1, s.ALL.value + it.valueAtRisk⟩ } := by
        simp [addItemStats, hst]
      rw [hadd] at h1 h2 h3 h4 h5 h6 h7 h8 ⊢
      refine ⟨?_, ?_, ?_, ?_, ?_, ?_, ?_, ?_⟩ <;>
        simp [h1, h2, h3, h4, h5, h6, h7, h8, List.filter_cons, hst] <;> omega
    | GOOD =>
      have hadd : addItemStats s it =
          { CRITICAL := s.CRITICAL, WARNING := s.WARNING, WATCH := s.WATCH,
            ALL := ⟨s.ALL.count + 1, s.ALL.value + it.valueAtRisk⟩ } := by
        simp [addItemStats, hst]
      rw [hadd] at h1 h2 h3 h4 h5 h6 h7 h8 ⊢
      refine ⟨?_, ?_, ?_, ?_, ?_, ?_, ?_, ?_⟩ <;>
        simp [h1, h2, h3, h4, h5, h6, h7, h8, List.filter_cons, hst] <;> omega

theorem status_partition (items : List ExpiryItem) :
    items.length
      = (items.filter (·.status == ExpStatus.CRITICAL)).length
        + (items.filter (·.status == ExpStatus.WARNING)).length
        + (items.filter (·.status == ExpStatus.WATCH)).length
        + (items.filter (·.status == ExpStatus.GOOD)).length := by
  induction items with
  | nil => rfl
  | cons it rest ih =>
    cases hst : it.status <;> simp [List.filter_cons, hst, ih] <;> omega

/-- C4: in the classifier's output, `stats.ALL` counts and sums the
value of every emitted item (including `GOOD` ones), each named tier
bucket counts and sums only items of its own status, `GOOD` items have
no bucket of their own (they appear in `ALL` beyond the three named
buckets), and the returned item list is sorted ascending by
`daysRemaining`. -/
theorem C4_classifier_stats (products : List Product) (today : Int) :
    (useExpiryStats products today).1.ALL.count
        = ((useExpiryStats products today).2).length ∧
    (useExpiryStats products today).1.ALL.value
        = (((useExpiryStats products today).2).map (·.valueAtRisk)).sum ∧
    (useExpiryStats products today).1.CRITICAL.count
        = (((useExpiryStats products today).2).filter (·.status == .CRITICAL)).length ∧
    (useExpiryStats products today).1.CRITICAL.value
        = ((((useExpiryStats products today).2).filter (·.status == .CRITICAL)).map
            (·.valueAtRisk)).sum ∧
    (useExpiryStats products today).1.WARNING.count
        = (((useExpiryStats products today).2).filter (·.status == .WARNING)).length ∧
    (useExpiryStats products today).1.WARNING.value
        = ((((useExpiryStats products today).2).filter (·.status == .WARNING)).map
            (·.valueAtRisk)).sum ∧
    (useExpiryStats products today).1.WATCH.count
        = (((useExpiryStats products today).2).filter (·.status == .WATCH)).length ∧
    (useExpiryStats products today).1.WATCH.value
        = ((((useExpiryStats products today).2).filter (·.status == .WATCH)).map
            (·.valueAtRisk)).sum ∧
    (useExpiryStats products today).1.ALL.count
        = (useExpiryStats products today).1.CRITICAL.count
          + (useExpiryStats products today).1.WARNING.count
          + (useExpiryStats products today).1.WATCH.count
          + (((useExpiryStats products today).2).filter (·.status == .GOOD)).length ∧
    List.Sorted daysLE ((useExpiryStats products today).2) := by
  have hperm := expiryItemsRaw_perm_sorted products today
  have hfold := foldl_addItemStats (expiryItemsRaw today products) initStats
  obtain ⟨h1, h2, h3, h4, h5, h6, h7, h8⟩ := hfold
  have hstats : (useExpiryStats products today).1
      = (expiryItemsRaw today products).foldl addItemStats initStats := rfl
  have hlen := hperm.length_eq
  have hsum : (((useExpiryStats products today).2).map (·.valueAtRisk)).sum
      = ((expiryItemsRaw today products).map (·.valueAtRisk)).sum :=
    (hperm.map (·.valueAtRisk)).sum_eq
  have hfiltC := (hperm.filter (·.status == ExpStatus.CRITICAL))
  have hfiltW := (hperm.filter (·.status == ExpStatus.WARNING))
  have hfiltT := (hperm.filter (·.status == ExpStatus.WATCH))
  have hfiltG := (hperm.filter (·.status == ExpStatus.GOOD))
  refine ⟨?_, ?_, ?_, ?_, ?_, ?_, ?_, ?_, ?_, ?_⟩
  · rw [hstats, h1, hlen]; simp [initStats]
  · rw [hstats, h2, hsum]; simp [initStats]
  · rw [hstats, h3, hfiltC.length_eq]; simp [initStats]
  · rw [hstats, h4, (hfiltC.map (·.valueAtRisk)).sum_eq]; simp [initStats]
  · rw [hstats, h5, hfiltW.length_eq]; simp [initStats]
  · rw [hstats, h6, (hfiltW.map (·.valueAtRisk)).sum_eq]; simp [initStats]
  · rw [hstats, h7, hfiltT.length_eq]; simp [initStats]
  · rw [hstats, h8, (hfiltT.map (·.valueAtRisk)).sum_eq]; simp [initStats]
  · rw [hstats, h1, h3, h5, h7, hfiltG.length_eq]
    have := status_partition (expiryItemsRaw today products)
    simp only [initStats]
    omega
  · simpa [useExpiryStats] using
      List.sorted_insertionSort daysLE (expiryItemsRaw today products)

/-! ### C5: duplicate-scan coalescing in the stock-entry grid -/

theorem prefillRow_gtin (rid : String) (rec : ScanRecord) (catalog : List Product) :
    (prefillRow rid rec catalog).gtin = scanCode rec := by
  unfold prefillRow
  cases lookupProduct (scanCode rec) catalog <;> simp [createEmptyRow]

theorem prefillRow_quantity (rid : String) (rec : ScanRecord) (catalog : List Product) :
    (prefillRow rid rec catalog).quantity = 1 := by
  unfold prefillRow
  cases lookupProduct (scanCode rec) catalog <;> simp [createEmptyRow]

theorem scanFold_bump (catalog : List Product) (c : String)
    (scans : List (String × ScanRecord))
    (hscans : ∀ pr ∈ scans, scanCode pr.2 = c) :
    ∀ r : GridRow, r.gtin = c → ∀ grid : List GridRow,
      ∃ r' : GridRow, scanFold catalog (r :: grid) scans = r' :: grid ∧
        r'.gtin = c ∧ r'.quantity = r.quantity + scans.length := by
  induction scans with
  | nil => intro r hr grid; exact ⟨r, rfl, hr, by simp [scanFold]⟩
  | cons s rest ih =>
    intro r hr grid
    have hc : scanCode s.2 = c := hscans s (by simp)
    have hhead : (r.gtin == scanCode s.2) = true := by
      simp [hr, hc]
    have hstep : handleScan s.1 s.2 catalog (r :: grid)
        = { r with quantity := r.quantity + 1, isHighlighted := true } :: grid := by
      simp [handleScan, List.any_cons, hhead, updateFirst]
    obtain ⟨r', hfold, hg, hq⟩ := ih (fun pr hpr => hscans pr (by simp [hpr]))
      { r with quantity := r.quantity + 1, isHighlighted := true } (by simpa using hr) grid
    refine ⟨r', ?_, hg, ?_⟩
    · show scanFold catalog (handleScan s.1 s.2 catalog (r :: grid)) rest = r' :: grid
      rw [hstep]
      exact hfold
    · rw [hq]
      simp
      ring

/-- C5: scanning the same identity `N ≥ 1` times (with no intervening
manual edit) into a grid that does not yet contain that identity leaves
exactly one grid row for it, sitting at the front with
`quantity == N`, and every pre-existing row untouched below it; in
particular a single scan of a new identity inserts one row with
quantity 1 at the front of the grid. -/
theorem C5_scan_coalescing (catalog : List Product) (grid : List GridRow)
    (c : String) (scans : List (String × ScanRecord))
    (hgrid : ∀ r ∈ grid, r.gtin ≠ c)
    (hscans : ∀ pr ∈ scans, scanCode pr.2 = c)
    (hn : 1 ≤ scans.length) :
    ∃ r : GridRow,
      scanFold catalog grid scans = r :: grid ∧
      r.gtin = c ∧
      r.quantity = scans.length ∧
      ((scanFold catalog grid scans).filter (·.gtin == c)).length = 1 := by
  cases scans with
  | nil => simp at hn
  | cons s rest =>
    have hc : scanCode s.2 = c := hscans s (by simp)
    have hany : (grid.any (·.gtin == scanCode s.2)) = false := by
      refine any_eq_false_of_forall _ _ fun r hr => ?_
      have := hgrid r hr
      simp [hc, this]
    have hstep : handleScan s.1 s.2 catalog grid
        = prefillRow s.1 s.2 catalog :: grid := by
      simp [handleScan, hany]
    obtain ⟨r', hfold, hg, hq⟩ := scanFold_bump catalog c rest
      (fun pr hpr => hscans pr (by simp [hpr]))
      (prefillRow s.1 s.2 catalog) (by rw [prefillRow_gtin, hc]) grid
    have hfold' : scanFold catalog grid (s :: rest) = r' :: grid := by
      show scanFold catalog (handleScan s.1 s.2 catalog grid) rest = r' :: grid
      rw [hstep]
      exact hfold
    refine ⟨r', hfold', hg, ?_, ?_⟩
    · rw [hq, prefillRow_quantity]
      simp
      omega
    · rw [hfold']
      have hnil : grid.filter (·.gtin == c) = [] := by
        rw [List.filter_eq_nil_iff]
        intro r hr
        simp [hgrid r hr]
      simp [List.filter_cons, hg, hnil]

/-- Witness for C5: two scans of the fresh identity `"X"` into an empty
grid yield exactly one row with quantity 2 at the front. -/
theorem C5_scan_coalescing_witness :
    ∃ r : GridRow,
      scanFold [] []
          [("r1", ⟨some "X", none, none, "X"⟩), ("r2", ⟨some "X", none, none, "X"⟩)]
        = [r] ∧
      r.gtin = "X" ∧
      r.quantity = 2 ∧
      ((scanFold [] []
          [("r1", ⟨some "X", none, none, "X"⟩), ("r2", ⟨some "X", none, none, "X"⟩)]).filter
        (·.gtin == "X")).length = 1 := by
  have h := C5_scan_coalescing [] [] "X"
    [("r1", ⟨some "X", none, none, "X"⟩), ("r2", ⟨some "X", none, none, "X"⟩)]
    (by simp) (by intro pr hpr; simp at hpr; rcases hpr with rfl | rfl <;> rfl) (by simp)
  simpa using h

/-! ### C6: partial failure in the `handleSaveAll` commit loop -/

/-- Grid row with only an id and a product name, for concrete commit
scenarios. -/
def sampleRow (rid nm : String) : GridRow :=
  { createEmptyRow rid rid with productName := nm }

theorem runSaveLoop_failure (fails : GridRow → Bool) (r : GridRow)
    (hr : r.productName ≠ "") (hf : fails r = true) :
    ∀ pre : List GridRow, (∀ x ∈ pre, x.productName = "" ∨ fails x = false) →
      ∀ post : List GridRow,
        runSaveLoop fails (pre ++ r :: post)
          = (pre.filter (fun x => x.productName != ""), false) := by
  intro pre
  induction pre with
  | nil =>
    intro _ post
    simp [runSaveLoop, hr, hf]
  | cons x xs ih =>
    intro hpre post
    have hxs : ∀ y ∈ xs, y.productName = "" ∨ fails y = false :=
      fun y hy => hpre y (List.mem_cons_of_mem x hy)
    rcases hpre x (by simp) with hx | hx
    · simp [runSaveLoop, hx, ih hxs post, List.filter_cons]
    · have hx' : x.productName ≠ "" → fails x = false := fun _ => hx
      by_cases hname : x.productName = ""
      · simp [runSaveLoop, hname, ih hxs post, List.filter_cons]
      · simp [runSaveLoop, hname, hx, ih hxs post, List.filter_cons]

/-- C6 (amended): when a row's underlying mutation call fails during the
`handleSaveAll` commit loop, previously applied rows are not rolled back
(they are exactly the non-blank rows before the failing one), no later
row is attempted, and — contrary to the original claim — the grid is
left completely unchanged: it still contains every row, including the
already-applied ones, not just the unprocessed ones. -/
theorem C6_saveAll_failure (fails : GridRow → Bool) (pre post : List GridRow) (r : GridRow)
    (hpre : ∀ x ∈ pre, x.productName = "" ∨ fails x = false)
    (hr : r.productName ≠ "") (hf : fails r = true) :
    handleSaveAll fails (pre ++ r :: post)
      = { applied := pre.filter (fun x => x.productName != ""),
          grid := pre ++ r :: post } := by
  unfold handleSaveAll
  rw [runSaveLoop_failure fails r hr hf pre hpre post]
  simp

/-- Witness for C6 at the spec's 3-row scenario: rows 1 and 3 succeed,
row 2 fails; row 1 is applied and the grid afterwards still holds all
three rows. -/
theorem C6_saveAll_failure_witness :
    handleSaveAll (fun r => r.id == "r2")
        [sampleRow "r1" "Item 1", sampleRow "r2" "Item 2", sampleRow "r3" "Item 3"]
      = { applied := [sampleRow "r1" "Item 1"],
          grid := [sampleRow "r1" "Item 1", sampleRow "r2" "Item 2",
                   sampleRow "r3" "Item 3"] } := by
  have h := C6_saveAll_failure (fun r => r.id == "r2")
    [sampleRow "r1" "Item 1"] [sampleRow "r3" "Item 3"] (sampleRow "r2" "Item 2")
    (by decide) (by decide) (by decide)
  simpa using h

/-- Counterexample to C6 as stated: for the 3-row grid where row 2's
mutation call fails, the grid after the failed commit is all of rows 1,
2, 3 — row 1 (already applied) is still present, so the grid does not
equal the not-yet-processed rows 2 and 3. -/
theorem C6_saveAll_failure_counterexample :
    (handleSaveAll (fun r => r.id == "r2")
        [sampleRow "r1" "Item 1", sampleRow "r2" "Item 2", sampleRow "r3" "Item 3"]).grid
      = [sampleRow "r1" "Item 1", sampleRow "r2" "Item 2", sampleRow "r3" "Item 3"] ∧
    sampleRow "r1" "Item 1" ∈ (handleSaveAll (fun r => r.id == "r2")
        [sampleRow "r1" "Item 1", sampleRow "r2" "Item 2", sampleRow "r3" "Item 3"]).grid ∧
    (handleSaveAll (fun r => r.id == "r2")
        [sampleRow "r1" "Item 1", sampleRow "r2" "Item 2", sampleRow "r3" "Item 3"]).grid
      ≠ [sampleRow "r2" "Item 2", sampleRow "r3" "Item 3"] := by
  refine ⟨by decide, by decide, by decide⟩

/-! ### C7: quantity validation -/

/-- C7 (amended): receive requests with a negative quantity are rejected
by `createBatchSchema` (quantity 0 is accepted, contrary to the
original claim); return/write-off quantities ≤ 0 are rejected by
`confirmReturn` before any ledger mutation, leaving the product
completely unchanged; and a return quantity above the batch's on-hand
quantity is not rejected but clamped down to the on-hand quantity by the
quantity-input handler (in-range values pass through unchanged), so the
over-quantity return commits a full-batch write-off instead of leaving
the batch untouched. -/
theorem C7_invalid_quantity :
    (∀ d : BatchData, d.quantity < 0 → createBatchSchemaValid d = false) ∧
    (∀ (bn : String) (q : Int) (p : Product), q ≤ 0 → confirmReturn bn q p = p) ∧
    (∀ input onHand : Int, onHand ≤ input → returnQtyOnChange input onHand = onHand) ∧
    (∀ input onHand : Int, input ≤ onHand → returnQtyOnChange input onHand = input) := by
  refine ⟨?_, ?_, ?_, ?_⟩
  · intro d hq
    simp [createBatchSchemaValid]
    omega
  · intro bn q p hq
    simp [confirmReturn, hq]
  · intro input onHand h
    simpa [returnQtyOnChange] using min_eq_right h
  · intro input onHand h
    simpa [returnQtyOnChange] using min_eq_left h

/-- Witness for C7 at concrete inputs: a −5 receive is rejected, a
0-quantity return leaves the product untouched, 10,000 clamps to the
50 on hand, and 3 passes through. -/
theorem C7_invalid_quantity_witness :
    createBatchSchemaValid ⟨"LOT-1", 0, -5, 600⟩ = false ∧
    confirmReturn "LOT-1" 0 (sampleProduct 50 [sampleBatch "LOT-1" 50])
      = sampleProduct 50 [sampleBatch "LOT-1" 50] ∧
    returnQtyOnChange 10000 50 = 50 ∧
    returnQtyOnChange 3 50 = 3 := by
  obtain ⟨h1, h2, h3, h4⟩ := C7_invalid_quantity
  exact ⟨h1 _ (by decide), h2 _ _ _ (by decide), h3 _ _ (by decide), h4 _ _ (by decide)⟩

/-- Counterexample to C7 as stated: `createBatchSchema` accepts a
receive of quantity 0 (`.min(0)`, not `> 0`), and a 10,000-unit return
against a 50-unit batch is not rejected — the input handler clamps it to
50 and the committed write-off leaves the batch at 0, not 50. -/
theorem C7_invalid_quantity_counterexample :
    createBatchSchemaValid ⟨"LOT-1", 0, 0, 600⟩ = true ∧
    returnQtyOnChange 10000 50 = 50 ∧
    (confirmReturn "LOT-1" (returnQtyOnChange 10000 50)
        (sampleProduct 50 [sampleBatch "LOT-1" 50])).batches
      = [sampleBatch "LOT-1" 0] := by
  refine ⟨by decide, by decide, by decide⟩

/-! ### C8: batch identity stability of the create-or-increment route -/

/-- C8: a receive whose `batchNumber` already occurs among the product's
batches increments that existing batch's quantity and overwrites its
`costPrice` with the supplied value, never changing the number of
batches (so no second batch with the same number is ever created, and
the count of batches carrying that number is unchanged); a new batch is
created (appended) only when no batch with that number exists. -/
theorem C8_batch_identity (d : BatchData) (p : Product) :
    ((∀ b ∈ p.batches, b.batchNumber ≠ d.batchNumber) →
      (createOrIncrementBatch d p).batches
        = p.batches ++ [{ batchNumber := d.batchNumber, expiryDate := d.expiryDate,
                          quantity := d.quantity, costPrice := d.costPrice }]) ∧
    (∀ pre b post, p.batches = pre ++ b :: post →
      (∀ x ∈ pre, x.batchNumber ≠ d.batchNumber) → b.batchNumber = d.batchNumber →
      (createOrIncrementBatch d p).batches
          = pre ++ { b with quantity := b.quantity + d.quantity,
                            costPrice := d.costPrice } :: post ∧
      (createOrIncrementBatch d p).batches.length = p.batches.length ∧
      ((createOrIncrementBatch d p).batches.filter
          (·.batchNumber == d.batchNumber)).length
        = (p.batches.filter (·.batchNumber == d.batchNumber)).length) := by
  constructor
  · intro h
    have hany : p.batches.any (·.batchNumber == d.batchNumber) = false :=
      any_eq_false_of_forall _ _ fun y hy => by simpa using h y hy
    simp [createOrIncrementBatch, hany]
  · intro pre b post hsplit hpre hb
    have hany : p.batches.any (·.batchNumber == d.batchNumber) = true := by
      rw [hsplit]
      exact List.any_eq_true.mpr ⟨b, by simp, by simpa using hb⟩
    have hupd : updateFirst (·.batchNumber == d.batchNumber)
        (fun x => { x with quantity := x.quantity + d.quantity, costPrice := d.costPrice })
        p.batches
          = pre ++ { b with quantity := b.quantity + d.quantity,
                            costPrice := d.costPrice } :: post := by
      rw [hsplit]
      exact updateFirst_of_split _ _ pre post b
        (fun y hy => by simpa using hpre y hy) (by simpa using hb)
    have hres : (createOrIncrementBatch d p).batches
        = pre ++ { b with quantity := b.quantity + d.quantity,
                          costPrice := d.costPrice } :: post := by
      simp [createOrIncrementBatch, hany, hupd]
    refine ⟨hres, ?_, ?_⟩
    · rw [hres, hsplit]
      simp
    · rw [hres, hsplit]
      simp [List.filter_append, List.filter_cons, hb]

/-- Witness for C8 at concrete inputs: receiving into the existing
`"LOT-2"` batch increments it in place (still exactly one `"LOT-2"`
batch), and receiving a fresh `"LOT-3"` appends a new batch. -/
theorem C8_batch_identity_witness :
    (createOrIncrementBatch ⟨"LOT-2", 0, 10, 900⟩
        (sampleProduct 12 [sampleBatch "LOT-1" 5, sampleBatch "LOT-2" 7])).batches
      = [sampleBatch "LOT-1" 5,
         { batchNumber := "LOT-2", expiryDate := 0, quantity := 17, costPrice := 900 }] ∧
    ((createOrIncrementBatch ⟨"LOT-2", 0, 10, 900⟩
        (sampleProduct 12 [sampleBatch "LOT-1" 5, sampleBatch "LOT-2" 7])).batches.filter
        (·.batchNumber == "LOT-2")).length = 1 ∧
    (createOrIncrementBatch ⟨"LOT-3", 5, 4, 700⟩
        (sampleProduct 12 [sampleBatch "LOT-1" 5, sampleBatch "LOT-2" 7])).batches
      = [sampleBatch "LOT-1" 5, sampleBatch "LOT-2" 7,
         { batchNumber := "LOT-3", expiryDate := 5, quantity := 4, costPrice := 700 }] := by
  refine ⟨?_, ?_, ?_⟩
  · have h := ((C8_batch_identity ⟨"LOT-2", 0, 10, 900⟩
      (sampleProduct 12 [sampleBatch "LOT-1" 5, sampleBatch "LOT-2" 7])).2
      [sampleBatch "LOT-1" 5] (sampleBatch "LOT-2" 7) [] (by decide) (by decide)
      (by decide)).1
    rw [h]; decide
  · have h := ((C8_batch_identity ⟨"LOT-2", 0, 10, 900⟩
      (sampleProduct 12 [sampleBatch "LOT-1" 5, sampleBatch "LOT-2" 7])).2
      [sampleBatch "LOT-1" 5] (sampleBatch "LOT-2" 7) [] (by decide) (by decide)
      (by decide)).2.2
    rw [h]; decide
  · have h := (C8_batch_identity ⟨"LOT-3", 5, 4, 700⟩
      (sampleProduct 12 [sampleBatch "LOT-1" 5, sampleBatch "LOT-2" 7])).1 (by decide)
    rw [h]; decide

/-! ### C9: receive defaults (batch number and expiry date) -/

theorem isLeap_iff (y : Nat) :
    isLeap y = true ↔ (4 ∣ y ∧ (¬ (100 ∣ y) ∨ 400 ∣ y)) := by
  simp [isLeap, Nat.dvd_iff_mod_eq_zero]

theorem leapCount_succ (n : Nat) :
    leapCount (n + 1) = leapCount n + (if isLeap (n + 1) then 1 else 0) := by
  have h1 : n / 100 ≤ n / 4 := Nat.div_le_div_left (by norm_num) (by norm_num)
  have h2 : n / 400 ≤ n / 100 := Nat.div_le_div_left (by norm_num) (by norm_num)
  have i1 : (100 : Nat) ∣ n + 1 → (4 : Nat) ∣ n + 1 :=
    fun h => dvd_trans ⟨25, by norm_num⟩ h
  have i2 : (400 : Nat) ∣ n + 1 → (100 : Nat) ∣ n + 1 :=
    fun h => dvd_trans ⟨4, by norm_num⟩ h
  unfold leapCount
  rw [Nat.succ_div n 4, Nat.succ_div n 100, Nat.succ_div n 400]
  by_cases h4 : (4 : Nat) ∣ n + 1 <;> by_cases h100 : (100 : Nat) ∣ n + 1 <;>
    by_cases h400 : (400 : Nat) ∣ n + 1
  · simp [h4, h100, h400, isLeap_iff]
    omega
  · simp [h4, h100, h400, isLeap_iff]
  · exact absurd (i2 h400) h100
  · simp [h4, h100, h400, isLeap_iff]
    omega
  · exact absurd (i1 h100) h4
  · exact absurd (i1 h100) h4
  · exact absurd (i2 h400) h100
  · simp [h4, h100, h400, isLeap_iff]

theorem dayNumber_jsAddYear (d : CivilDate)
    (hy : 1 ≤ d.year) (hm : 1 ≤ d.month) (hm2 : d.month ≤ 12)
    (hd : 1 ≤ d.day) (hdm : d.day ≤ daysInMonth d.year d.month)
    (hfeb : ¬ (d.month = 2 ∧ d.day = 29)) :
    jsAddYear d = ⟨d.year + 1, d.month, d.day⟩ ∧
    dayNumber (jsAddYear d)
      = dayNumber d +
        (if (3 ≤ d.month ∧ isLeap (d.year + 1) = true)
            ∨ (d.month ≤ 2 ∧ isLeap d.year = true)
         then 366 else 365) := by
  obtain ⟨y, m, dd⟩ := d
  simp only at hy hm hm2 hd hdm hfeb ⊢
  have hguard : dd ≤ daysInMonth (y + 1) m := by
    by_cases hm28 : m = 2
    · subst hm28
      have : dd ≤ 29 := by
        revert hdm
        unfold daysInMonth
        by_cases hl : isLeap y = true <;> simp [hl]
        omega
      have hdd : dd ≤ 28 := by
        rcases Nat.lt_or_ge dd 29 with h | h
        · omega
        · exact absurd ⟨rfl, by omega⟩ hfeb
      revert hdd
      unfold daysInMonth
      by_cases hl : isLeap (y + 1) = true <;> simp [hl]
      omega
    · have : daysInMonth (y + 1) m = daysInMonth y m := by
        unfold daysInMonth
        interval_cases m <;> simp_all
      omega
  have hjs : jsAddYear ⟨y, m, dd⟩ = ⟨y + 1, m, dd⟩ := by
    unfold jsAddYear
    simp [hguard]
  refine ⟨hjs, ?_⟩
  rw [hjs]
  unfold dayNumber daysBeforeMonth
  simp only
  have hls : leapCount (y - 1 + 1) = leapCount (y - 1) + (if isLeap (y - 1 + 1) then 1 else 0) :=
    leapCount_succ (y - 1)
  have hy1 : y - 1 + 1 = y := by omega
  rw [hy1] at hls
  have hsub : y + 1 - 1 = y := by omega
  rw [hsub]
  rcases (by omega : (3 ≤ m ∧ ¬ (m ≤ 2)) ∨ (¬ (3 ≤ m) ∧ m ≤ 2)) with ⟨hm3, hm2'⟩ | ⟨hm3, hm2'⟩ <;>
    by_cases hl1 : isLeap (y + 1) = true <;>
    by_cases hl0 : isLeap y = true <;>
    simp [hm3, hm2', hl1, hl0, hls] <;>
    omega

/-- C9 (amended): a receive call with an empty (or null) batch number
records the stock under the sentinel batch number `"DEFAULT"` (a
non-empty batch number is kept as-is); a receive call with an omitted
`expiryDate` assigns the new batch an expiry one *calendar year* after
the call time (`setFullYear(+1)`: same month and day, year + 1) — which
is 366 days, not 365, whenever a Feb 29 falls inside the span (365
otherwise), contrary to the original claim of "exactly 365 days for
every call time". -/
theorem C9_receive_defaults (callDate : CivilDate) (q : Int) (cp : Option Int)
    (hy : 1 ≤ callDate.year) (hm : 1 ≤ callDate.month) (hm2 : callDate.month ≤ 12)
    (hd : 1 ≤ callDate.day) (hdm : callDate.day ≤ daysInMonth callDate.year callDate.month)
    (hfeb : ¬ (callDate.month = 2 ∧ callDate.day = 29)) :
    (incrementStockBatchData callDate none q none cp).batchNumber = "DEFAULT" ∧
    (incrementStockBatchData callDate (some "") q none cp).batchNumber = "DEFAULT" ∧
    (∀ s : String, s ≠ "" →
      (incrementStockBatchData callDate (some s) q none cp).batchNumber = s) ∧
    (∀ bn : Option String,
      (incrementStockBatchData callDate bn q none cp).expiryDate
        = ⟨callDate.year + 1, callDate.month, callDate.day⟩ ∧
      dayNumber ((incrementStockBatchData callDate bn q none cp).expiryDate)
        = dayNumber callDate +
          (if (3 ≤ callDate.month ∧ isLeap (callDate.year + 1) = true)
              ∨ (callDate.month ≤ 2 ∧ isLeap callDate.year = true)
           then 366 else 365)) := by
  obtain ⟨hjs, hdn⟩ := dayNumber_jsAddYear callDate hy hm hm2 hd hdm hfeb
  refine ⟨rfl, rfl, ?_, ?_⟩
  · intro s hs
    simp [incrementStockBatchData, defaultBatchNumber, hs]
  · intro bn
    have hexp : (incrementStockBatchData callDate bn q none cp).expiryDate
        = jsAddYear callDate := rfl
    exact ⟨by rw [hexp, hjs], by rw [hexp, hdn]⟩

/-- Witness for C9 at a concrete call time (2023-03-15): empty and null
batch numbers map to `"DEFAULT"`, `"LOT-1"` is kept, and the default
expiry is 2024-03-16... rather, 2024-03-15, 366 days later because
Feb 29 2024 lies in the span. -/
theorem C9_receive_defaults_witness :
    (incrementStockBatchData ⟨2023, 3, 15⟩ none 10 none (some 600)).batchNumber
      = "DEFAULT" ∧
    (incrementStockBatchData ⟨2023, 3, 15⟩ (some "") 10 none (some 600)).batchNumber
      = "DEFAULT" ∧
    (incrementStockBatchData ⟨2023, 3, 15⟩ (some "LOT-1") 10 none (some 600)).batchNumber
      = "LOT-1" ∧
    (incrementStockBatchData ⟨2023, 3, 15⟩ (some "LOT-1") 10 none (some 600)).expiryDate
      = ⟨2024, 3, 15⟩ ∧
    dayNumber ((incrementStockBatchData ⟨2023, 3, 15⟩ (some "LOT-1") 10 none
        (some 600)).expiryDate)
      = dayNumber ⟨2023, 3, 15⟩ + 366 := by
  obtain ⟨h1, h2, h3, h4⟩ := C9_receive_defaults ⟨2023, 3, 15⟩ 10 (some 600)
    (by norm_num) (by norm_num) (by norm_num) (by norm_num) (by decide) (by decide)
  obtain ⟨h5, h6⟩ := h4 (some "LOT-1")
  refine ⟨h1, h2, h3 "LOT-1" (by decide), h5, ?_⟩
  rw [h6]
  norm_num
  decide

/-- Counterexample to C9 as stated: a receive on 2023-07-01 with omitted
expiry defaults to 2024-07-01, which is 366 days after the call time
because the span crosses Feb 29 2024 — not "exactly 365 days ... for
every call time". -/
theorem C9_receive_defaults_counterexample :
    (incrementStockBatchData ⟨2023, 7, 1⟩ (some "") 10 none (some 600)).expiryDate
      = ⟨2024, 7, 1⟩ ∧
    dayNumber ⟨2024, 7, 1⟩ = dayNumber ⟨2023, 7, 1⟩ + 366 ∧
    dayNumber ⟨2024, 7, 1⟩ ≠ dayNumber ⟨2023, 7, 1⟩ + 365 := by
  refine ⟨by decide, by decide, by decide⟩

/-! ### C10: scanner history bounds -/

/-- C10: after every `confirmAndSync` the scanner store holds at most
500 scanned items and at most 200 sync logs (given the bounds held
before the call), the entry recorded for this call sits at the head of
`scannedItems` (most recent first), and `syncLogs` either gains this
call's log at its head (product matched) or is left unchanged (product
not found — the error path writes no log). -/
theorem C10_scanner_history_bounds (catalog : List Product) (logId : String)
    (item : ScannedItem) (s : ScannerState)
    (_h1 : s.scannedItems.length ≤ 500) (h2 : s.syncLogs.length ≤ 200) :
    (confirmAndSync catalog logId item s).scannedItems.length ≤ 500 ∧
    (confirmAndSync catalog logId item s).syncLogs.length ≤ 200 ∧
    (∃ r, (confirmAndSync catalog logId item s).scannedItems.head? = some r ∧
      r.id = item.id ∧ r.rawData = item.rawData ∧ r.quantity = item.quantity) ∧
    ((confirmAndSync catalog logId item s).syncLogs = s.syncLogs ∨
      ∃ lg, (confirmAndSync catalog logId item s).syncLogs.head? = some lg ∧
        lg.scanId = item.id ∧ lg.id = logId) := by
  have hhead : ∀ (n : Nat) (x : SyncLog) (l : List SyncLog), 0 < n →
      ((x :: l).take n).head? = some x := by
    intro n x l hn
    cases n with
    | zero => omega
    | succ k => simp
  have hhead' : ∀ (n : Nat) (x : ScannedItem) (l : List ScannedItem), 0 < n →
      ((x :: l).take n).head? = some x := by
    intro n x l hn
    cases n with
    | zero => omega
    | succ k => simp
  unfold confirmAndSync
  cases hid : identifyProduct item catalog with
  | some product =>
    refine ⟨?_, ?_, ?_, ?_⟩
    · simp
    · simp
    · exact ⟨_, hhead' 500 _ _ (by norm_num), rfl, rfl, rfl⟩
    · exact Or.inr ⟨_, hhead 200 _ _ (by norm_num), rfl, rfl⟩
  | none =>
    refine ⟨?_, ?_, ?_, ?_⟩
    · simp
    · simpa using h2
    · exact ⟨_, hhead' 500 _ _ (by norm_num), rfl, rfl, rfl⟩
    · exact Or.inl rfl

/-- Witness for C10: one `confirmAndSync` of a scan with no catalog
match against the empty store yields one scanned item (the error entry,
at the head) and no sync logs. -/
theorem C10_scanner_history_bounds_witness :
    (confirmAndSync [] "log-1"
        { id := "s1", gtin := none, productName := "", rawData := "RAW-1",
          quantity := 3, syncStatus := .PENDING, syncMessage := "" }
        ⟨[], []⟩).scannedItems.length ≤ 500 ∧
    (confirmAndSync [] "log-1"
        { id := "s1", gtin := none, productName := "", rawData := "RAW-1",
          quantity := 3, syncStatus := .PENDING, syncMessage := "" }
        ⟨[], []⟩).syncLogs.length ≤ 200 ∧
    (∃ r, (confirmAndSync [] "log-1"
        { id := "s1", gtin := none, productName := "", rawData := "RAW-1",
          quantity := 3, syncStatus := .PENDING, syncMessage := "" }
        ⟨[], []⟩).scannedItems.head? = some r ∧
      r.id = "s1" ∧ r.rawData = "RAW-1" ∧ r.quantity = 3) ∧
    ((confirmAndSync [] "log-1"
        { id := "s1", gtin := none, productName := "", rawData := "RAW-1",
          quantity := 3, syncStatus := .PENDING, syncMessage := "" }
        ⟨[], []⟩).syncLogs = [] ∨
      ∃ lg, (confirmAndSync [] "log-1"
        { id := "s1", gtin := none, productName := "", rawData := "RAW-1",
          quantity := 3, syncStatus := .PENDING, syncMessage := "" }
        ⟨[], []⟩).syncLogs.head? = some lg ∧
        lg.scanId = "s1" ∧ lg.id = "log-1") := by
  exact C10_scanner_history_bounds [] "log-1"
    { id := "s1", gtin := none, productName := "", rawData := "RAW-1",
      quantity := 3, syncStatus := .PENDING, syncMessage := "" }
    ⟨[], []⟩ (by decide) (by decide)

end A7
